import Mathlib

/-!
Shallow embedding of `src/youtube.rs` (LiveShot).

The source drives a headless-browser tab through a consent-dismissal step
and a five-stage readiness sequence.  The tab is an external capability;
we model it as an environment of oracles: each script evaluation the code
performs is a field of the environment giving the value the evaluation
would produce (`none` models an evaluation error or a result that is not
interpretable at the expected type, matching the `.ok().and_then(..)`
chains in the source).

Time: `Instant` becomes `Nat` (milliseconds).  `Instant::now()` advances
only at `thread::sleep(500ms)` inside the poll loop; script evaluations
are modelled as instantaneous.  `poll_js` is instrumented to report, in
addition to its success/timeout outcome, the wall-clock time at which it
returned and how many sleeps and script evaluations it performed — these
fields exist only to make the spec's timing claims statable and change
nothing about the control flow, which is transcribed from the Rust loop.

Effects: the claims speak about which navigations, cookie writes and
stages are executed, so `dismiss_consent` and `prepare` also return the
list of effects/stages they performed, in order.
-/

/-- Substring containment on the underlying character list: `pat` is a
prefix of some suffix of `l`.  Models Rust `str::contains`. -/
def hasInfixList (pat : List Char) : List Char → Bool
  | [] => pat.isEmpty
  | c :: t => pat.isPrefixOf (c :: t) || hasInfixList pat t

/-- Rust `s.contains(pat)` (substring containment). -/
def strContains (s pat : String) : Bool :=
  hasInfixList pat.data s.data

/-- Instrumented result of one `poll_js` call: `ok` is the
`Option<()>` outcome of the Rust function (`true` = `Some(())`,
`false` = `None`/timeout); `time` is the wall clock at return,
`sleeps` the number of 500 ms sleeps performed, `evals` the number of
script evaluations performed. -/
structure PollResult where
  ok : Bool
  time : Nat
  sleeps : Nat
  evals : Nat
  deriving Repr, DecidableEq

/-- `poll_js(tab, js, expect, deadline)` from the source, with the tab's
evaluation of `js` at wall-clock time `t` modelled by `evalR t`
(`none` = evaluation error or non-boolean result).  Transcription of:

    while Instant::now() < deadline {
        let val = tab.evaluate(js, false).ok()
            .and_then(|r| r.value).and_then(|v| v.as_bool())
            .unwrap_or(!expect);
        if val == expect { return Some(()); }
        std::thread::sleep(Duration::from_millis(500));
    }
    None
-/
def poll_js (evalR : Nat → Option Bool) (expect : Bool) (deadline : Nat)
    (now : Nat) : PollResult :=
  if h : now < deadline then
    if (evalR now).getD (!expect) = expect then
      ⟨true, now, 0, 1⟩
    else
      let r := poll_js evalR expect deadline (now + 500)
      ⟨r.ok, r.time, r.sleeps + 1, r.evals + 1⟩
  else
    ⟨false, now, 0, 0⟩
termination_by deadline - now
decreasing_by omega

/-- Environment of `dismiss_consent`: the oracle results of each tab
operation the function may perform, in source order. -/
structure ConsentEnv where
  /-- Evaluation of the consent-detection script in `has_consent_dialog`:
  `none` models an evaluation error or a non-boolean result. -/
  detect : Option Bool
  /-- `tab.get_url()`. -/
  currentUrl : String
  /-- `tab.navigate_to("https://www.youtube.com")?.wait_until_navigated()?`. -/
  navHome : Except String Unit
  /-- `tab.evaluate(cookie script)?` — the script-level cookie write. -/
  cookieEval : Except String Unit
  /-- `tab.navigate_to(url)?.wait_until_navigated()?`. -/
  navTarget : Except String Unit
  deriving Repr

/-- Observable tab effects of `dismiss_consent`, in order. -/
inductive ConsentEffect where
  /-- Evaluation of the consent-detection script. -/
  | evalDetect
  /-- `navigate_to(url)` followed by `wait_until_navigated()`. -/
  | navigateAndWait (url : String)
  /-- Script-level cookie assignment (`document.cookie = ...` twice). -/
  | evalCookieScript
  deriving Repr, DecidableEq

/-- Number of navigations in an effect trace. -/
def navCount (tr : List ConsentEffect) : Nat :=
  (tr.filter fun e => match e with
    | ConsentEffect.navigateAndWait _ => true
    | _ => false).length

/-- Number of script-level cookie writes in an effect trace. -/
def cookieWriteCount (tr : List ConsentEffect) : Nat :=
  (tr.filter fun e => match e with
    | ConsentEffect.evalCookieScript => true
    | _ => false).length

/-- `has_consent_dialog` from the source:
`tab.evaluate(js).ok().and_then(value).and_then(as_bool).unwrap_or(false)`. -/
def has_consent_dialog (env : ConsentEnv) : Bool :=
  env.detect.getD false

/-- Continuation of `dismiss_consent` after the (possible) home-page hop:
cookie-write evaluation, then re-navigation to the target `url`; both
fallible with `?`.  `pre` is the effect trace accumulated so far. -/
def dismissCookieAndRenav (env : ConsentEnv) (url : String)
    (pre : List ConsentEffect) : Except String Unit × List ConsentEffect :=
  match env.cookieEval with
  | Except.error e => (Except.error e, pre ++ [ConsentEffect.evalCookieScript])
  | Except.ok () =>
    match env.navTarget with
    | Except.error e =>
        (Except.error e,
         pre ++ [ConsentEffect.evalCookieScript, ConsentEffect.navigateAndWait url])
    | Except.ok () =>
        (Except.ok (),
         pre ++ [ConsentEffect.evalCookieScript, ConsentEffect.navigateAndWait url])

/-- `dismiss_consent(tab, url)` from the source: if no dialog is
detected, return `Ok(())` at once; otherwise, if the current URL is
off-site (does not contain `"youtube.com"`), navigate to the home page
first (fallible), then write the consent cookies via a script evaluation
(fallible) and re-navigate to `url` (fallible). -/
def dismiss_consent (env : ConsentEnv) (url : String) :
    Except String Unit × List ConsentEffect :=
  if !(has_consent_dialog env) then
    (Except.ok (), [ConsentEffect.evalDetect])
  else if !(strContains env.currentUrl "youtube.com") then
    match env.navHome with
    | Except.error e =>
        (Except.error e,
         [ConsentEffect.evalDetect,
          ConsentEffect.navigateAndWait "https://www.youtube.com"])
    | Except.ok () =>
        dismissCookieAndRenav env url
          [ConsentEffect.evalDetect,
           ConsentEffect.navigateAndWait "https://www.youtube.com"]
  else
    dismissCookieAndRenav env url [ConsentEffect.evalDetect]

/-- Environment of `prepare`: the consent sub-environment plus the
oracle results of every script evaluation `prepare` performs.  The three
polled scripts are time-indexed; `none` models an evaluation error or a
result that is not a boolean (resp. not a string, for `diag`). -/
structure PrepareEnv where
  consent : ConsentEnv
  /-- Evaluation of the ad-wait script at time `t` (`movie_player` has
  class `ad-showing`). -/
  adShowing : Nat → Option Bool
  /-- Evaluation of `document.querySelector('video') !== null` at `t`. -/
  videoExists : Nat → Option Bool
  /-- Result of the playback-kick evaluation; discarded by `let _ =`. -/
  kick : Except String Unit
  /-- Evaluation of the playback-confirm script at time `t`
  (`readyState>=3 && !paused`). -/
  playing : Nat → Option Bool
  /-- Evaluation of the diagnostic-snapshot script, as a string
  (`none` = evaluation error or non-string result). -/
  diag : Option String
  /-- Result of the theater-toggle click evaluation; discarded. -/
  theater : Except String Unit
  /-- Result of the mouse-event dispatch evaluation; discarded. -/
  mouse : Except String Unit

/-- The stages of `prepare`, recorded in execution order. -/
inductive Stage where
  | consent
  | adWait
  | mediaWait
  | playbackKick
  | playbackConfirm
  /-- The diagnostic-snapshot evaluation on playback-confirm timeout. -/
  | diagCapture
  | settle
  deriving Repr, DecidableEq

/-- Message of the ad-wait timeout:
`anyhow!("Timed out waiting for YouTube ads to finish ({}s)", timeout_secs)`. -/
def adsMsg (timeout_secs : Nat) : String :=
  "Timed out waiting for YouTube ads to finish (" ++ toString timeout_secs ++ "s)"

/-- Message of the media-wait timeout:
`anyhow!("Timed out after {}s waiting for a <video> element", timeout_secs)`. -/
def mediaMsg (timeout_secs : Nat) : String :=
  "Timed out after " ++ toString timeout_secs ++ "s waiting for a <video> element"

/-- Message of the playback-confirm timeout:
`bail!("Timed out after {}s waiting for video to play. State: {}", timeout_secs, diag)`. -/
def playMsg (timeout_secs : Nat) (diag : String) : String :=
  "Timed out after " ++ toString timeout_secs
    ++ "s waiting for video to play. State: " ++ diag

/-- `prepare(tab, deadline, timeout_secs, url)` from the source, entered
at wall-clock time `now`, returning the Rust `Result` together with the
list of stages executed.  Stage order and short-circuiting transcribe the
source: `dismiss_consent(..)?`, ad-wait poll `.ok_or_else(ads msg)?`,
media-wait poll `.ok_or_else(media msg)?`, discarded playback-kick
evaluation, playback-confirm poll with diagnostic capture and `bail!` on
timeout, then the best-effort settle block (sleeps, theater toggle,
mouse events — results discarded) and `Ok(())`. -/
def prepare (env : PrepareEnv) (deadline timeout_secs : Nat) (url : String)
    (now : Nat) : Except String Unit × List Stage :=
  match dismiss_consent env.consent url with
  | (Except.error e, _) => (Except.error e, [Stage.consent])
  | (Except.ok (), _) =>
    let adR := poll_js env.adShowing false deadline now
    if !adR.ok then
      (Except.error (adsMsg timeout_secs), [Stage.consent, Stage.adWait])
    else
      let vidR := poll_js env.videoExists true deadline adR.time
      if !vidR.ok then
        (Except.error (mediaMsg timeout_secs),
         [Stage.consent, Stage.adWait, Stage.mediaWait])
      else
        let _ := env.kick
        let playR := poll_js env.playing true deadline vidR.time
        if !playR.ok then
          let diag := env.diag.getD "unknown"
          (Except.error (playMsg timeout_secs diag),
           [Stage.consent, Stage.adWait, Stage.mediaWait, Stage.playbackKick,
            Stage.playbackConfirm, Stage.diagCapture])
        else
          let _ := env.theater
          let _ := env.mouse
          (Except.ok (),
           [Stage.consent, Stage.adWait, Stage.mediaWait, Stage.playbackKick,
            Stage.playbackConfirm, Stage.settle])

/-- `prepare`'s environment with the three best-effort (discarded)
evaluation results replaced. -/
def withBestEffort (env : PrepareEnv) (k th m : Except String Unit) :
    PrepareEnv :=
  { env with kick := k, theater := th, mouse := m }

/- ### Basic unfolding lemmas for `poll_js` -/

theorem poll_js_expired (evalR : Nat → Option Bool) (expect : Bool)
    {deadline now : Nat} (h : deadline ≤ now) :
    poll_js evalR expect deadline now = ⟨false, now, 0, 0⟩ := by
  unfold poll_js
  simp [Nat.not_lt.mpr h]

theorem poll_js_step (evalR : Nat → Option Bool) (expect : Bool)
    {deadline now : Nat} (h : now < deadline) :
    poll_js evalR expect deadline now =
      if (evalR now).getD (!expect) = expect then
        ⟨true, now, 0, 1⟩
      else
        let r := poll_js evalR expect deadline (now + 500)
        ⟨r.ok, r.time, r.sleeps + 1, r.evals + 1⟩ := by
  conv_lhs => unfold poll_js
  simp [h]

/-- Whenever a poll call returns the timeout outcome, the wall clock at
return is at or past the deadline, and — when the call was entered before
the deadline — strictly less than `deadline + 500`; a call entered at or
past the deadline returns at entry time. -/
theorem poll_js_timeout_aux (evalR : Nat → Option Bool) (expect : Bool)
    (deadline : Nat) :
    ∀ k now, deadline - now ≤ 500 * k →
      (poll_js evalR expect deadline now).ok = false →
        deadline ≤ (poll_js evalR expect deadline now).time ∧
        (now < deadline → (poll_js evalR expect deadline now).time < deadline + 500) ∧
        (deadline ≤ now → (poll_js evalR expect deadline now).time = now) := by
  intro k
  induction k with
  | zero =>
    intro now hk _
    rw [poll_js_expired evalR expect (by omega)]
    exact ⟨(by omega : deadline ≤ now), fun hlt => absurd hlt (by omega),
      fun _ => rfl⟩
  | succ k ih =>
    intro now hk
    by_cases h : now < deadline
    · rw [poll_js_step evalR expect h]
      by_cases hv : (evalR now).getD (!expect) = expect
      · rw [if_pos hv]
        intro hfalse
        exact absurd hfalse (by simp)
      · rw [if_neg hv]
        dsimp only
        intro hfalse
        have := ih (now + 500) (by omega) hfalse
        refine ⟨this.1, fun _ => ?_, fun hd => absurd h (by omega)⟩
        by_cases h2 : now + 500 < deadline
        · exact this.2.1 h2
        · have := this.2.2 (by omega)
          omega
    · rw [poll_js_expired evalR expect (by omega)]
      exact fun _ => ⟨(by omega : deadline ≤ now),
        fun hlt => absurd hlt (by omega), fun _ => rfl⟩

/-- If the evaluated value never matches the expectation, the poll
returns timeout. -/
theorem poll_js_never_aux (evalR : Nat → Option Bool) (expect : Bool)
    (deadline : Nat) (h : ∀ t, (evalR t).getD (!expect) ≠ expect) :
    ∀ k now, deadline - now ≤ 500 * k →
      (poll_js evalR expect deadline now).ok = false := by
  intro k
  induction k with
  | zero =>
    intro now hk
    rw [poll_js_expired evalR expect (by omega)]
  | succ k ih =>
    intro now hk
    by_cases hlt : now < deadline
    · rw [poll_js_step evalR expect hlt, if_neg (h now)]
      dsimp only
      exact ih (now + 500) (by omega)
    · rw [poll_js_expired evalR expect (by omega)]

/-- `poll_js` behaves identically when every failed or non-boolean
evaluation is replaced by the literal non-matching value `!expect`. -/
theorem poll_js_totalize_aux (evalR : Nat → Option Bool) (expect : Bool)
    (deadline : Nat) :
    ∀ k now, deadline - now ≤ 500 * k →
      poll_js evalR expect deadline now =
        poll_js (fun t => some ((evalR t).getD (!expect))) expect deadline now := by
  intro k
  induction k with
  | zero =>
    intro now hk
    rw [poll_js_expired evalR expect (by omega),
        poll_js_expired _ expect (by omega)]
  | succ k ih =>
    intro now hk
    by_cases hlt : now < deadline
    · rw [poll_js_step evalR expect hlt, poll_js_step _ expect hlt]
      have hval : ((fun t => some ((evalR t).getD (!expect))) now).getD (!expect)
          = (evalR now).getD (!expect) := rfl
      rw [hval]
      by_cases hv : (evalR now).getD (!expect) = expect
      · rw [if_pos hv, if_pos hv]
      · rw [if_neg hv, if_neg hv]
        dsimp only
        rw [ih (now + 500) (by omega)]
    · rw [poll_js_expired evalR expect (by omega),
          poll_js_expired _ expect (by omega)]

/-- Fast path: entered before the deadline with an already-matching
value, `poll_js` succeeds at entry time with zero sleeps and one
evaluation. -/
theorem poll_js_now (evalR : Nat → Option Bool) (expect : Bool)
    {deadline now : Nat} (h : now < deadline)
    (hv : (evalR now).getD (!expect) = expect) :
    poll_js evalR expect deadline now = ⟨true, now, 0, 1⟩ := by
  rw [poll_js_step evalR expect h, if_pos hv]

/- ### Substring lemmas for the error-message claims -/

theorem isPrefixOf_self_append (l t : List Char) :
    l.isPrefixOf (l ++ t) = true := by
  induction l with
  | nil => simp [List.isPrefixOf]
  | cons c cs ih => simp [List.isPrefixOf, ih]

theorem hasInfixList_sandwich (p s : List Char) :
    ∀ q, hasInfixList p (q ++ (p ++ s)) = true := by
  intro q
  induction q with
  | nil =>
    cases p with
    | nil =>
      cases s with
      | nil => rfl
      | cons c t => simp [hasInfixList, List.isPrefixOf]
    | cons c t => simp [hasInfixList, isPrefixOf_self_append]
  | cons c rest ih => simp [hasInfixList, ih]

/-- A string built as `a ++ b ++ c` contains `b` as a substring. -/
theorem strContains_sandwich (a b c : String) :
    strContains (a ++ b ++ c) b = true := by
  show hasInfixList b.data (a ++ b ++ c).data = true
  rw [String.data_append, String.data_append, List.append_assoc]
  exact hasInfixList_sandwich b.data c.data a.data

/-- A string built as `a ++ b` contains `b` as a substring. -/
theorem strContains_append_right (a b : String) :
    strContains (a ++ b) b = true := by
  show hasInfixList b.data (a ++ b).data = true
  rw [String.data_append]
  have := hasInfixList_sandwich b.data [] a.data
  rwa [List.append_nil] at this

/- ### Claim theorems: the poll primitive -/

/-- C2: For every poll call, an evaluation failure on a tick (error or
non-boolean result, modelled by `none`) behaves exactly as a value not
matching the expectation on that tick — the whole call is unchanged if
every `none` is replaced by the literal non-matching value — and the only
failure outcome is deadline exhaustion: a `false` outcome implies the
wall clock reached the deadline. -/
theorem poll_js_evalFailure_is_mismatch (evalR : Nat → Option Bool)
    (expect : Bool) (deadline now : Nat) :
    poll_js evalR expect deadline now =
      poll_js (fun t => some ((evalR t).getD (!expect))) expect deadline now ∧
    ((poll_js evalR expect deadline now).ok = false →
      deadline ≤ (poll_js evalR expect deadline now).time) := by
  refine ⟨poll_js_totalize_aux evalR expect deadline (deadline - now) now
    (by omega), fun hf => ?_⟩
  exact (poll_js_timeout_aux evalR expect deadline (deadline - now) now
    (by omega) hf).1

/-- Witness for C2 at a concrete input: the evaluation always fails
(`none`), and the call behaves as if the value never matched, timing out
with the clock past the deadline. -/
theorem poll_js_evalFailure_is_mismatch_witness :
    poll_js (fun _ => none) true 600 0 =
      poll_js (fun t => some (((fun _ => none : Nat → Option Bool) t).getD
        (!true))) true 600 0 ∧
    600 ≤ (poll_js (fun _ => none) true 600 0).time :=
  ⟨(poll_js_evalFailure_is_mismatch (fun _ => none) true 600 0).1,
   (poll_js_evalFailure_is_mismatch (fun _ => none) true 600 0).2
     (by simp [poll_js])⟩

/-- C3: If the evaluated value never equals the expectation, the poll
loop terminates with the timeout outcome; the wall clock at return is at
or past the deadline and — when entered before the deadline — strictly
below `deadline + 500` (one tick interval past the deadline).  The
deadline comparison alone bounds the loop: the hypothesis places no
bound on the number of ticks. -/
theorem poll_js_timeout_bound (evalR : Nat → Option Bool) (expect : Bool)
    (deadline now : Nat)
    (h : ∀ t, (evalR t).getD (!expect) ≠ expect) :
    (poll_js evalR expect deadline now).ok = false ∧
    deadline ≤ (poll_js evalR expect deadline now).time ∧
    (now < deadline →
      (poll_js evalR expect deadline now).time < deadline + 500) := by
  have hok := poll_js_never_aux evalR expect deadline h (deadline - now) now
    (by omega)
  have ht := poll_js_timeout_aux evalR expect deadline (deadline - now) now
    (by omega) hok
  exact ⟨hok, ht.1, ht.2.1⟩

/-- Witness for C3 at a concrete input: predicate constantly `false`,
expectation `true`, deadline 1200 ms, entry at 0. -/
theorem poll_js_timeout_bound_witness :
    (poll_js (fun _ => some false) true 1200 0).ok = false ∧
    1200 ≤ (poll_js (fun _ => some false) true 1200 0).time ∧
    (0 < 1200 →
      (poll_js (fun _ => some false) true 1200 0).time < 1200 + 500) :=
  poll_js_timeout_bound (fun _ => some false) true 1200 0
    (by intro t; simp)

/-- C7: If the evaluated value already matches the expectation at call
time (and the deadline has not yet passed), the poll returns success at
entry time, with zero sleeps and exactly one evaluation. -/
theorem poll_js_fast_path (evalR : Nat → Option Bool) (expect : Bool)
    (deadline now : Nat) (hlt : now < deadline)
    (hv : (evalR now).getD (!expect) = expect) :
    poll_js evalR expect deadline now = ⟨true, now, 0, 1⟩ :=
  poll_js_now evalR expect hlt hv

/-- Witness for C7 at a concrete input. -/
theorem poll_js_fast_path_witness :
    poll_js (fun _ => some true) true 1000 0 = ⟨true, 0, 0, 1⟩ :=
  poll_js_fast_path (fun _ => some true) true 1000 0 (by decide) (by decide)

/- ### Claim theorems: the consent resolver -/

theorem dismissCookieAndRenav_ok (env : ConsentEnv) (url : String)
    (pre : List ConsentEffect)
    (h : (dismissCookieAndRenav env url pre).fst = Except.ok ()) :
    dismissCookieAndRenav env url pre =
      (Except.ok (), pre ++ [ConsentEffect.evalCookieScript,
        ConsentEffect.navigateAndWait url]) := by
  unfold dismissCookieAndRenav at h ⊢
  rcases hce : env.cookieEval with e | u
  · rw [hce] at h; simp at h
  · cases u
    rw [hce] at h
    rcases hnt : env.navTarget with e | u2
    · rw [hnt] at h; simp at h
    · cases u2; rfl

/-- C4: Whenever the consent dialog is detected and `dismiss_consent`
returns success, the last tab effect it performed is the navigation to
the originally requested target URL (followed by waiting for it, which
`navigateAndWait` models) — in every path, including the one with an
intermediate home-page hop after an off-site redirect. -/
theorem dismiss_consent_ends_at_target (env : ConsentEnv) (url : String)
    (hdialog : has_consent_dialog env = true)
    (hok : (dismiss_consent env url).fst = Except.ok ()) :
    (dismiss_consent env url).snd.getLast? =
      some (ConsentEffect.navigateAndWait url) := by
  by_cases hsite : strContains env.currentUrl "youtube.com" = true
  · have hd : dismiss_consent env url =
        dismissCookieAndRenav env url [ConsentEffect.evalDetect] := by
      unfold dismiss_consent
      rw [hdialog, hsite]
      simp
    rw [hd] at hok ⊢
    rw [dismissCookieAndRenav_ok env url _ hok]
    rfl
  · rw [Bool.not_eq_true] at hsite
    rcases hnh : env.navHome with e | u
    · have hd : dismiss_consent env url =
          (Except.error e,
           [ConsentEffect.evalDetect,
            ConsentEffect.navigateAndWait "https://www.youtube.com"]) := by
        unfold dismiss_consent
        rw [hdialog, hsite, hnh]
        simp
      rw [hd] at hok
      simp at hok
    · have hd : dismiss_consent env url =
          dismissCookieAndRenav env url
            [ConsentEffect.evalDetect,
             ConsentEffect.navigateAndWait "https://www.youtube.com"] := by
        unfold dismiss_consent
        rw [hdialog, hsite, hnh]
        simp
      rw [hd] at hok ⊢
      rw [dismissCookieAndRenav_ok env url _ hok]
      rfl

/-- Consent environment of the off-site witness scenario: the dialog is
detected while the tab sits on the standalone consent domain; every tab
operation succeeds. -/
def cenvOffsite : ConsentEnv :=
  ⟨some true, "https://consent.google.com/m?continue=x",
   Except.ok (), Except.ok (), Except.ok ()⟩

/-- Witness for C4 at a concrete input: off-site redirect path; the
trace ends with the navigation back to the requested watch URL. -/
theorem dismiss_consent_ends_at_target_witness :
    (dismiss_consent cenvOffsite
        "https://www.youtube.com/watch?v=dQw4w9WgXcQ").snd.getLast? =
      some (ConsentEffect.navigateAndWait
        "https://www.youtube.com/watch?v=dQw4w9WgXcQ") :=
  dismiss_consent_ends_at_target cenvOffsite
    "https://www.youtube.com/watch?v=dQw4w9WgXcQ" rfl rfl

/-- C8: When no consent dialog is detected, `dismiss_consent` returns
success immediately having performed only the detection evaluation:
zero navigations and zero script-level cookie writes. -/
theorem dismiss_consent_noop_when_absent (env : ConsentEnv) (url : String)
    (h : has_consent_dialog env = false) :
    dismiss_consent env url = (Except.ok (), [ConsentEffect.evalDetect]) ∧
    navCount (dismiss_consent env url).snd = 0 ∧
    cookieWriteCount (dismiss_consent env url).snd = 0 := by
  have hd : dismiss_consent env url =
      (Except.ok (), [ConsentEffect.evalDetect]) := by
    unfold dismiss_consent
    rw [h]
    simp
  exact ⟨hd, by rw [hd]; rfl, by rw [hd]; rfl⟩

/-- Consent environment of the no-dialog witness scenario. -/
def cenvNoDialog : ConsentEnv :=
  ⟨some false, "https://www.youtube.com/watch?v=abc",
   Except.ok (), Except.ok (), Except.ok ()⟩

/-- Witness for C8 at a concrete input. -/
theorem dismiss_consent_noop_when_absent_witness :
    dismiss_consent cenvNoDialog "https://www.youtube.com/watch?v=abc" =
      (Except.ok (), [ConsentEffect.evalDetect]) ∧
    navCount (dismiss_consent cenvNoDialog
      "https://www.youtube.com/watch?v=abc").snd = 0 ∧
    cookieWriteCount (dismiss_consent cenvNoDialog
      "https://www.youtube.com/watch?v=abc").snd = 0 :=
  dismiss_consent_noop_when_absent cenvNoDialog
    "https://www.youtube.com/watch?v=abc" rfl

/-- C10: If the consent-detection evaluation itself fails (evaluation
error or non-boolean result, modelled by `detect = none`), detection
yields `false` and `dismiss_consent` silently returns success with no
cookie write and no navigation. -/
theorem dismiss_consent_detect_failure_noop (env : ConsentEnv)
    (url : String) (h : env.detect = none) :
    has_consent_dialog env = false ∧
    dismiss_consent env url = (Except.ok (), [ConsentEffect.evalDetect]) ∧
    navCount (dismiss_consent env url).snd = 0 ∧
    cookieWriteCount (dismiss_consent env url).snd = 0 := by
  have hfalse : has_consent_dialog env = false := by
    unfold has_consent_dialog
    rw [h]
    rfl
  have hd : dismiss_consent env url =
      (Except.ok (), [ConsentEffect.evalDetect]) := by
    unfold dismiss_consent
    rw [hfalse]
    simp
  exact ⟨hfalse, hd, by rw [hd]; rfl, by rw [hd]; rfl⟩

/-- Consent environment of the detection-failure witness scenario: the
detection script evaluation errors out. -/
def cenvDetectErr : ConsentEnv :=
  ⟨none, "https://www.youtube.com/watch?v=abc",
   Except.ok (), Except.ok (), Except.ok ()⟩

/-- Witness for C10 at a concrete input. -/
theorem dismiss_consent_detect_failure_noop_witness :
    has_consent_dialog cenvDetectErr = false ∧
    dismiss_consent cenvDetectErr "https://www.youtube.com/watch?v=abc" =
      (Except.ok (), [ConsentEffect.evalDetect]) ∧
    navCount (dismiss_consent cenvDetectErr
      "https://www.youtube.com/watch?v=abc").snd = 0 ∧
    cookieWriteCount (dismiss_consent cenvDetectErr
      "https://www.youtube.com/watch?v=abc").snd = 0 :=
  dismiss_consent_detect_failure_noop cenvDetectErr
    "https://www.youtube.com/watch?v=abc" rfl

/- ### Claim theorems: the readiness sequencer -/

theorem strContains_of_data (s pat : String) (q r : List Char)
    (h : s.data = q ++ (pat.data ++ r)) : strContains s pat = true := by
  unfold strContains
  rw [h]
  exact hasInfixList_sandwich pat.data r q

/-- The ad-wait timeout message embeds the configured timeout value. -/
theorem adsMsg_contains (t : Nat) :
    strContains (adsMsg t) (toString t) = true := by
  apply strContains_of_data _ _
    ("Timed out waiting for YouTube ads to finish (").data ("s)").data
  simp [adsMsg, String.data_append, List.append_assoc]

/-- The playback timeout message embeds the configured timeout value. -/
theorem playMsg_contains_timeout (t : Nat) (d : String) :
    strContains (playMsg t d) (toString t) = true := by
  apply strContains_of_data _ _ ("Timed out after ").data
    (("s waiting for video to play. State: ").data ++ d.data)
  simp [playMsg, String.data_append, List.append_assoc]

/-- The playback timeout message embeds the diagnostic snapshot. -/
theorem playMsg_contains_diag (t : Nat) (d : String) :
    strContains (playMsg t d) d = true := by
  apply strContains_of_data _ _
    (("Timed out after " ++ toString t
      ++ "s waiting for video to play. State: ").data) []
  simp [playMsg, String.data_append, List.append_assoc]

/-- C1: If consent dismissal succeeds and the ad-wait evaluation never
observes the ad-showing condition cleared (it yields `true` — or fails,
which defaults to `true` — on every tick), `prepare` fails with the
ads-timeout error, whose message embeds the configured timeout value,
and the media-wait, playback-kick, playback-confirm and settle stages
are never executed: the stage trace stops at the ad-wait stage. -/
theorem prepare_adTimeout_short_circuit (env : PrepareEnv)
    (deadline timeout_secs : Nat) (url : String) (now : Nat)
    (hc : (dismiss_consent env.consent url).fst = Except.ok ())
    (had : ∀ t, (env.adShowing t).getD true = true) :
    prepare env deadline timeout_secs url now =
      (Except.error (adsMsg timeout_secs), [Stage.consent, Stage.adWait]) ∧
    strContains (adsMsg timeout_secs) (toString timeout_secs) = true ∧
    Stage.mediaWait ∉ (prepare env deadline timeout_secs url now).snd ∧
    Stage.playbackKick ∉ (prepare env deadline timeout_secs url now).snd ∧
    Stage.playbackConfirm ∉ (prepare env deadline timeout_secs url now).snd ∧
    Stage.settle ∉ (prepare env deadline timeout_secs url now).snd := by
  have hok : (poll_js env.adShowing false deadline now).ok = false :=
    poll_js_never_aux env.adShowing false deadline
      (fun t => by rw [Bool.not_false, had t]; simp) (deadline - now) now
      (by omega)
  have hmain : prepare env deadline timeout_secs url now =
      (Except.error (adsMsg timeout_secs), [Stage.consent, Stage.adWait]) := by
    unfold prepare
    rcases hdc : dismiss_consent env.consent url with ⟨res, tr⟩
    rw [hdc] at hc
    simp at hc
    subst hc
    simp [hok]
  refine ⟨hmain, adsMsg_contains timeout_secs, ?_, ?_, ?_, ?_⟩
  all_goals rw [hmain]
  all_goals simp

/-- C5: If consent dismissal, the ad-wait poll and the media-wait poll
succeed but the playback-confirm poll times out, `prepare` fails with an
error embedding both the configured timeout value and the diagnostic
snapshot (media presence / readiness level / paused flag / source URL as
one string, `"unknown"` if its evaluation fails), and the diagnostic
capture stage appears in the trace; moreover, in every run of `prepare`
whatsoever, a diagnostic capture in the trace forces the result to be
exactly the playback-timeout error — the ad-wait and media-wait timeouts
never produce it. -/
theorem prepare_playback_timeout_diag (env : PrepareEnv)
    (deadline timeout_secs : Nat) (url : String) (now : Nat)
    (hc : (dismiss_consent env.consent url).fst = Except.ok ())
    (had : (poll_js env.adShowing false deadline now).ok = true)
    (hvid : (poll_js env.videoExists true deadline
      (poll_js env.adShowing false deadline now).time).ok = true)
    (hplay : (poll_js env.playing true deadline
      (poll_js env.videoExists true deadline
        (poll_js env.adShowing false deadline now).time).time).ok = false) :
    prepare env deadline timeout_secs url now =
      (Except.error (playMsg timeout_secs (env.diag.getD "unknown")),
       [Stage.consent, Stage.adWait, Stage.mediaWait, Stage.playbackKick,
        Stage.playbackConfirm, Stage.diagCapture]) ∧
    strContains (playMsg timeout_secs (env.diag.getD "unknown"))
      (toString timeout_secs) = true ∧
    strContains (playMsg timeout_secs (env.diag.getD "unknown"))
      (env.diag.getD "unknown") = true ∧
    (∀ (env2 : PrepareEnv) (d2 t2 : Nat) (u2 : String) (n2 : Nat),
      Stage.diagCapture ∈ (prepare env2 d2 t2 u2 n2).snd →
        (prepare env2 d2 t2 u2 n2).fst =
          Except.error (playMsg t2 (env2.diag.getD "unknown"))) := by
  refine ⟨?_, playMsg_contains_timeout _ _, playMsg_contains_diag _ _, ?_⟩
  · unfold prepare
    rcases hdc : dismiss_consent env.consent url with ⟨res, tr⟩
    rw [hdc] at hc
    simp at hc
    subst hc
    simp [had, hvid, hplay]
  · intro env2 d2 t2 u2 n2
    unfold prepare
    rcases hdc2 : dismiss_consent env2.consent u2 with ⟨res2, tr2⟩
    cases res2 with
    | error e => intro hmem; simp at hmem
    | ok u =>
      cases u
      dsimp only
      split
      · intro hmem; simp at hmem
      · split
        · intro hmem; simp at hmem
        · split
          · intro _; rfl
          · intro hmem; simp at hmem

/-- C6: Once consent dismissal and all three polls succeed, `prepare`
returns success — the playback-kick and settle stage evaluations are
discarded, so replacing their results by arbitrary values (in particular
failures) cannot change the outcome. -/
theorem prepare_best_effort_cannot_fail (env : PrepareEnv)
    (deadline timeout_secs : Nat) (url : String) (now : Nat)
    (hc : (dismiss_consent env.consent url).fst = Except.ok ())
    (had : (poll_js env.adShowing false deadline now).ok = true)
    (hvid : (poll_js env.videoExists true deadline
      (poll_js env.adShowing false deadline now).time).ok = true)
    (hplay : (poll_js env.playing true deadline
      (poll_js env.videoExists true deadline
        (poll_js env.adShowing false deadline now).time).time).ok = true) :
    ∀ (k th m : Except String Unit),
      prepare (withBestEffort env k th m) deadline timeout_secs url now =
        (Except.ok (), [Stage.consent, Stage.adWait, Stage.mediaWait,
          Stage.playbackKick, Stage.playbackConfirm, Stage.settle]) := by
  intro k th m
  unfold prepare withBestEffort
  dsimp only
  rcases hdc : dismiss_consent env.consent url with ⟨res, tr⟩
  rw [hdc] at hc
  simp at hc
  subst hc
  simp [had, hvid, hplay]

/-- C9: If the deadline is at or before the entry wall clock, every poll
call returns timeout at once with zero evaluations and zero sleeps, so a
`prepare` entered past its deadline (with consent dismissal succeeding)
fails at the ad-wait stage, whatever the page's state. -/
theorem prepare_expired_deadline (env : PrepareEnv)
    (deadline timeout_secs : Nat) (url : String) (now : Nat)
    (hd : deadline ≤ now)
    (hc : (dismiss_consent env.consent url).fst = Except.ok ()) :
    (∀ (evalR : Nat → Option Bool) (expect : Bool),
        poll_js evalR expect deadline now = ⟨false, now, 0, 0⟩) ∧
    prepare env deadline timeout_secs url now =
      (Except.error (adsMsg timeout_secs), [Stage.consent, Stage.adWait]) := by
  refine ⟨fun evalR expect => poll_js_expired evalR expect hd, ?_⟩
  unfold prepare
  rcases hdc : dismiss_consent env.consent url with ⟨res, tr⟩
  rw [hdc] at hc
  simp at hc
  subst hc
  simp [poll_js_expired env.adShowing false hd]

/-- Prepare environment of the ad-stuck witness scenario: no consent
dialog, the ad-showing flag stays `true` forever, everything else fine. -/
def envAdStuck : PrepareEnv :=
  ⟨cenvNoDialog, fun _ => some true, fun _ => some true, Except.ok (),
   fun _ => some true, some "d", Except.ok (), Except.ok ()⟩

/-- Witness for C1 at a concrete input: ad flag permanently `true`,
deadline 600 ms, timeout text 30 s. -/
theorem prepare_adTimeout_short_circuit_witness :
    prepare envAdStuck 600 30 "https://www.youtube.com/watch?v=abc" 0 =
      (Except.error (adsMsg 30), [Stage.consent, Stage.adWait]) ∧
    Stage.mediaWait ∉
      (prepare envAdStuck 600 30 "https://www.youtube.com/watch?v=abc" 0).snd ∧
    Stage.settle ∉
      (prepare envAdStuck 600 30 "https://www.youtube.com/watch?v=abc" 0).snd :=
  ⟨(prepare_adTimeout_short_circuit envAdStuck 600 30
      "https://www.youtube.com/watch?v=abc" 0 rfl (fun _ => rfl)).1,
   (prepare_adTimeout_short_circuit envAdStuck 600 30
      "https://www.youtube.com/watch?v=abc" 0 rfl (fun _ => rfl)).2.2.1,
   (prepare_adTimeout_short_circuit envAdStuck 600 30
      "https://www.youtube.com/watch?v=abc" 0 rfl (fun _ => rfl)).2.2.2.2.2⟩

/-- Prepare environment of the playback-stuck witness scenario: ads
clear and a video element exists immediately, but the media never
reaches a playing state; the diagnostic script reports a paused video. -/
def envPlayStuck : PrepareEnv :=
  ⟨cenvNoDialog, fun _ => some false, fun _ => some true, Except.ok (),
   fun _ => some false, some "readyState=1 paused=true src=none",
   Except.ok (), Except.ok ()⟩

/-- Witness for C5 at a concrete input: playback never confirms within a
600 ms deadline; the error embeds the 30 s timeout text and the
diagnostic snapshot. -/
theorem prepare_playback_timeout_diag_witness :
    prepare envPlayStuck 600 30 "https://www.youtube.com/watch?v=abc" 0 =
      (Except.error (playMsg 30 "readyState=1 paused=true src=none"),
       [Stage.consent, Stage.adWait, Stage.mediaWait, Stage.playbackKick,
        Stage.playbackConfirm, Stage.diagCapture]) ∧
    strContains (playMsg 30 "readyState=1 paused=true src=none")
      "readyState=1 paused=true src=none" = true :=
  ⟨(prepare_playback_timeout_diag envPlayStuck 600 30
      "https://www.youtube.com/watch?v=abc" 0 rfl
      (by simp [poll_js, envPlayStuck])
      (by simp [poll_js, envPlayStuck])
      (by simp [poll_js, envPlayStuck])).1,
   (prepare_playback_timeout_diag envPlayStuck 600 30
      "https://www.youtube.com/watch?v=abc" 0 rfl
      (by simp [poll_js, envPlayStuck])
      (by simp [poll_js, envPlayStuck])
      (by simp [poll_js, envPlayStuck])).2.2.1⟩

/-- Prepare environment of the all-conditions-hold witness scenario. -/
def envReady : PrepareEnv :=
  ⟨cenvNoDialog, fun _ => some false, fun _ => some true, Except.ok (),
   fun _ => some true, some "d", Except.ok (), Except.ok ()⟩

/-- Witness for C6 at a concrete input: all three best-effort evaluation
results replaced by failures; `prepare` still returns success. -/
theorem prepare_best_effort_cannot_fail_witness :
    prepare (withBestEffort envReady (Except.error "eval failed")
        (Except.error "eval failed") (Except.error "eval failed"))
      600 30 "https://www.youtube.com/watch?v=abc" 0 =
      (Except.ok (), [Stage.consent, Stage.adWait, Stage.mediaWait,
        Stage.playbackKick, Stage.playbackConfirm, Stage.settle]) :=
  prepare_best_effort_cannot_fail envReady 600 30
    "https://www.youtube.com/watch?v=abc" 0 rfl
    (by simp [poll_js, envReady])
    (by simp [poll_js, envReady])
    (by simp [poll_js, envReady])
    (Except.error "eval failed") (Except.error "eval failed")
    (Except.error "eval failed")

/-- Witness for C9 at a concrete input: deadline 0, entry at 0, every
wait condition already holding on the page; the poll performs zero
evaluations and `prepare` still fails with the ads-timeout error. -/
theorem prepare_expired_deadline_witness :
    poll_js envReady.adShowing false 0 0 = ⟨false, 0, 0, 0⟩ ∧
    prepare envReady 0 30 "https://www.youtube.com/watch?v=abc" 0 =
      (Except.error (adsMsg 30), [Stage.consent, Stage.adWait]) :=
  ⟨(prepare_expired_deadline envReady 0 30
      "https://www.youtube.com/watch?v=abc" 0 (Nat.le_refl 0) rfl).1
      envReady.adShowing false,
   (prepare_expired_deadline envReady 0 30
      "https://www.youtube.com/watch?v=abc" 0 (Nat.le_refl 0) rfl).2⟩
